import Mathlib

/-!
Verification of the ROI simulator server (`src/server/index.js`).

The calculation core `computeResults` is embedded shallowly over the
rationals.  JavaScript numbers that may carry the positive-infinity
sentinel (`payback_months`, `roi_percentage`, and every value flowing
through the rounding helper) are modelled by `JSVal`, a rational extended
with a single point at positive infinity; the JS arithmetic steps used by
the rounding helper (`+ Number.EPSILON`, `* 100`, `Math.round`, `/ 100`)
are modelled op-by-op, each propagating infinity exactly as IEEE-754
double arithmetic does on `Infinity`.
-/

namespace RoiServer

/-- A JavaScript number as used in the results path: either a finite
rational or the positive-infinity sentinel. -/
inductive JSVal where
  | fin (q : ℚ)
  | inf
  deriving DecidableEq, Repr

/-- `Number.EPSILON` = 2⁻⁵², the machine epsilon added by the rounding
helper before rounding. -/
def numberEpsilon : ℚ := 1 / 2 ^ 52

/-- Server-side constant: automated cost per invoice ($0.20). -/
def automated_cost_per_invoice : ℚ := 20 / 100

/-- Server-side constant: automated error rate, in percent (0.1%). -/
def error_rate_auto : ℚ := 1 / 10

/-- Server-side constant: bias factor favouring automation (1.1). -/
def min_roi_boost_factor : ℚ := 11 / 10

/-- JS `v + Number.EPSILON`: adding a finite number to `Infinity` yields
`Infinity`. -/
def jsAddEps : JSVal → JSVal
  | .fin q => .fin (q + numberEpsilon)
  | .inf => .inf

/-- JS `v * 100`: `Infinity * 100 = Infinity`. -/
def jsMul100 : JSVal → JSVal
  | .fin q => .fin (q * 100)
  | .inf => .inf

/-- JS `v / 100`: `Infinity / 100 = Infinity`. -/
def jsDiv100 : JSVal → JSVal
  | .fin q => .fin (q / 100)
  | .inf => .inf

/-- JS `Math.round`: round to nearest integer, halves toward +∞
(`⌊x + 1/2⌋` on finite values); `Math.round(Infinity) = Infinity`. -/
def jsMathRound : JSVal → JSVal
  | .fin q => .fin (⌊q + 1 / 2⌋ : ℤ)
  | .inf => .inf

/-- The rounding helper `round = (v) => Math.round((v + Number.EPSILON) * 100) / 100`
from `computeResults`, composed from the JS operations it performs. -/
def round (v : JSVal) : JSVal :=
  jsDiv100 (jsMathRound (jsMul100 (jsAddEps v)))

/-- The calculator's input record (`inputs` destructured at the top of
`computeResults`); absent JSON fields default to `0` (`36` for the
horizon), so a fully populated rational record models any request. -/
structure ScenarioInputs where
  monthly_invoice_volume : ℚ
  num_ap_staff : ℚ
  avg_hours_per_invoice : ℚ
  hourly_wage : ℚ
  error_rate_manual : ℚ
  error_cost : ℚ
  time_horizon_months : ℚ
  one_time_implementation_cost : ℚ
  deriving DecidableEq, Repr

/-- Step 1: `labor_cost_manual = num_ap_staff * hourly_wage * avg_hours_per_invoice * monthly_invoice_volume`. -/
def labor_cost_manual (i : ScenarioInputs) : ℚ :=
  i.num_ap_staff * i.hourly_wage * i.avg_hours_per_invoice * i.monthly_invoice_volume

/-- Step 2: `auto_cost = monthly_invoice_volume * automated_cost_per_invoice`. -/
def auto_cost (i : ScenarioInputs) : ℚ :=
  i.monthly_invoice_volume * automated_cost_per_invoice

/-- Step 3: `error_savings = ((errorManualPct - errorAutoPct) / 100) * monthly_invoice_volume * error_cost`. -/
def error_savings (i : ScenarioInputs) : ℚ :=
  ((i.error_rate_manual - error_rate_auto) / 100) * i.monthly_invoice_volume * i.error_cost

/-- Step 4: monthly savings before the bias factor,
`(labor_cost_manual + error_savings) - auto_cost`. -/
def monthly_savings_raw (i : ScenarioInputs) : ℚ :=
  (labor_cost_manual i + error_savings i) - auto_cost i

/-- Step 5: the bias factor applied,
`monthly_savings = monthly_savings * min_roi_boost_factor`. -/
def monthly_savings_biased (i : ScenarioInputs) : ℚ :=
  monthly_savings_raw i * min_roi_boost_factor

/-- The floor step (line 63):
`if (monthly_savings < 1) monthly_savings = Math.max(1, Math.abs(monthly_savings)) * min_roi_boost_factor`.
At this point the variable `monthly_savings` already holds the biased
value, so both the comparison and `Math.abs` read the biased value. -/
def monthly_savings_final (i : ScenarioInputs) : ℚ :=
  if monthly_savings_biased i < 1 then
    max 1 |monthly_savings_biased i| * min_roi_boost_factor
  else
    monthly_savings_biased i

/-- Step 6: `cumulative_savings = monthly_savings * time_horizon_months`
(unrounded monthly savings). -/
def cumulative_savings (i : ScenarioInputs) : ℚ :=
  monthly_savings_final i * i.time_horizon_months

/-- `net_savings = cumulative_savings - one_time_implementation_cost`. -/
def net_savings (i : ScenarioInputs) : ℚ :=
  cumulative_savings i - i.one_time_implementation_cost

/-- `payback_months = monthly_savings > 0 ? one_time_implementation_cost / monthly_savings : Infinity`. -/
def payback_months (i : ScenarioInputs) : JSVal :=
  if 0 < monthly_savings_final i then
    .fin (i.one_time_implementation_cost / monthly_savings_final i)
  else
    .inf

/-- `roi_percentage = one_time_implementation_cost > 0 ? (net_savings / one_time_implementation_cost) * 100 : Infinity`. -/
def roi_percentage (i : ScenarioInputs) : JSVal :=
  if 0 < i.one_time_implementation_cost then
    .fin ((net_savings i / i.one_time_implementation_cost) * 100)
  else
    .inf

/-- The record `computeResults` returns. -/
structure ComputedResults where
  labor_cost_manual : JSVal
  auto_cost : JSVal
  error_savings : JSVal
  monthly_savings : JSVal
  cumulative_savings : JSVal
  net_savings : JSVal
  payback_months : JSVal
  roi_percentage : JSVal
  deriving DecidableEq, Repr

/-- `computeResults` (src/server/index.js:30-84): every field is passed
through the rounding helper, except that `payback_months` is returned as
`round(payback_months * 100) / 100`. -/
def computeResults (i : ScenarioInputs) : ComputedResults where
  labor_cost_manual := round (.fin (labor_cost_manual i))
  auto_cost := round (.fin (auto_cost i))
  error_savings := round (.fin (error_savings i))
  monthly_savings := round (.fin (monthly_savings_final i))
  cumulative_savings := round (.fin (cumulative_savings i))
  net_savings := round (.fin (net_savings i))
  payback_months := jsDiv100 (round (jsMul100 (payback_months i)))
  roi_percentage := round (roi_percentage i)

/-- Two-decimal epsilon-adjusted rounding as the spec words it: add a
negligible epsilon, then round half-away-from-zero-on-positives to two
decimals.  Used to compare the code's composed rounding pipeline against
the spec's description. -/
def round2spec (q : ℚ) : ℚ :=
  (⌊(q + numberEpsilon) * 100 + 1 / 2⌋ : ℤ) / 100

/-! ### Persistence and report endpoints

`POST /scenarios` and `POST /report/generate` from `src/server/index.js`,
with the MongoDB collection modelled as an in-memory list.  JavaScript
truthiness of the required string fields (`!payload.scenario_name`,
`!email`, `!scenarioId`) is modelled by `strTruthy`: an absent field or an
empty string is falsy. -/

/-- JS truthiness of an optional string field: `none` (absent) and the
empty string are falsy. -/
def strTruthy : Option String → Bool
  | none => false
  | some s => !s.isEmpty

/-- A persisted scenario document (`models/Scenario`): name, the eight
input fields, the computed results, and a creation timestamp. -/
structure SavedScenario where
  scenario_name : String
  inputs : ScenarioInputs
  results : ComputedResults
  created_at : ℕ
  deriving DecidableEq, Repr

/-- The body of a save request: the scenario name may be absent. -/
structure SavePayload where
  scenario_name : Option String
  inputs : ScenarioInputs
  deriving DecidableEq, Repr

/-- Outcome of `POST /scenarios`: the 400 rejection or the saved document. -/
inductive SaveResult where
  | badRequest (message : String)
  | ok (scenario : SavedScenario)
  deriving DecidableEq, Repr

/-- `POST /scenarios`: reject with 400 when `scenario_name` is falsy
(no write happens); otherwise compute results, build the document and
append it to the store. -/
def postScenarios (now : ℕ) (payload : SavePayload) (store : List SavedScenario) :
    SaveResult × List SavedScenario :=
  if strTruthy payload.scenario_name = false then
    (.badRequest "Scenario name required", store)
  else
    let results := computeResults payload.inputs
    let doc : SavedScenario :=
      { scenario_name := payload.scenario_name.getD ""
        inputs := payload.inputs
        results := results
        created_at := now }
    (.ok doc, store ++ [doc])

/-- The report PDF, modelled by the data it renders: the loaded scenario,
the recipient email and the generation time. -/
structure ReportDoc where
  scenario : SavedScenario
  email : String
  generated_at : ℕ
  deriving DecidableEq, Repr

/-- Outcome of `POST /report/generate`: a 400 rejection, the 404
not-found response, or the rendered document. -/
inductive ReportResult where
  | badRequest (message : String)
  | notFound (message : String)
  | pdf (doc : ReportDoc)
  deriving DecidableEq, Repr

/-- Whether a report outcome carries a produced document. -/
def isDoc : ReportResult → Bool
  | .pdf _ => true
  | _ => false

/-- `Scenario.findById`: the id-keyed lookup in the store. -/
def findById (id : String) (store : List (String × SavedScenario)) : Option SavedScenario :=
  (store.find? (fun e => e.1 == id)).map (fun e => e.2)

/-- `POST /report/generate`: 400 when `email` is falsy, then 400 when
`scenarioId` is falsy, then 404 when the id does not resolve; only
otherwise is the PDF rendered. -/
def generateReport (now : ℕ) (scenarioId email : Option String)
    (store : List (String × SavedScenario)) : ReportResult :=
  if strTruthy email = false then .badRequest "Email required"
  else if strTruthy scenarioId = false then .badRequest "scenarioId required"
  else
    match findById (scenarioId.getD "") store with
    | none => .notFound "Scenario not found"
    | some sc => .pdf { scenario := sc, email := email.getD "", generated_at := now }

/-! ### Concrete inputs used as test vectors and counterexamples -/

/-- Scenario 1 of the spec: volume 2000, 3 staff, 0.17 h/invoice,
wage 30, manual error rate 0.5%, error cost 100, horizon 36,
implementation cost 50000. -/
def scenario1 : ScenarioInputs :=
  ⟨2000, 3, 17/100, 30, 1/2, 100, 36, 50000⟩

/-- Scenario 2 of the spec: all-zero inputs except the default horizon 36. -/
def allZeroInputs : ScenarioInputs :=
  ⟨0, 0, 0, 0, 0, 0, 36, 0⟩

/-- Volume 10, everything else zero: raw savings −2, biased −2.2, so the
floor fires with |biased| = 2.2 as base. -/
def floorAbsInput : ScenarioInputs :=
  ⟨10, 0, 0, 0, 0, 0, 36, 0⟩

/-- One invoice, one staffer, one hour, wage 1.15: raw savings 0.95,
biased 1.045 — at least 1, so the floor does not fire, yet below 1.1. -/
def bandInput : ScenarioInputs :=
  ⟨1, 1, 1, 23/20, 0, 0, 36, 0⟩

/-- One invoice, one staffer, one hour, wage 1.21: monthly savings 1.111,
rounded field 1.11, so rounding before multiplying by the horizon gives a
different cumulative figure. -/
def thirdDecimalInput : ScenarioInputs :=
  ⟨1, 1, 1, 121/100, 0, 0, 36, 0⟩

/-- All-zero inputs with a negative one-time implementation cost. -/
def negCostInput : ScenarioInputs :=
  ⟨0, 0, 0, 0, 0, 0, 36, -1⟩

/-! ### Helper lemmas -/

/-- The composed rounding pipeline on a finite value agrees with the
spec-level two-decimal epsilon-adjusted rounding. -/
theorem round_fin_eq (q : ℚ) : round (.fin q) = .fin (round2spec q) := rfl

/-- The composed rounding pipeline maps the infinity sentinel to itself. -/
theorem round_inf_eq : round .inf = .inf := rfl

/-- `Number.EPSILON` is positive. -/
theorem numberEpsilon_pos : 0 < numberEpsilon := by
  unfold numberEpsilon; positivity

/-- Two-decimal epsilon-adjusted rounding of a value at least 1 stays at
least 1. -/
theorem one_le_round2spec {q : ℚ} (h : 1 ≤ q) : 1 ≤ round2spec q := by
  unfold round2spec
  rw [le_div_iff₀ (by norm_num : (0:ℚ) < 100)]
  have hfl : (100 : ℤ) ≤ ⌊(q + numberEpsilon) * 100 + 1 / 2⌋ := by
    rw [Int.le_floor]
    push_cast
    nlinarith [numberEpsilon_pos]
  calc (1 : ℚ) * 100 = ((100 : ℤ) : ℚ) := by norm_num
    _ ≤ ((⌊(q + numberEpsilon) * 100 + 1 / 2⌋ : ℤ) : ℚ) := by exact_mod_cast hfl

/-- After the floor-and-bias step the monthly savings is at least 1. -/
theorem one_le_monthly_savings_final (i : ScenarioInputs) :
    1 ≤ monthly_savings_final i := by
  unfold monthly_savings_final
  split
  · have h1 : (1 : ℚ) ≤ max 1 |monthly_savings_biased i| := le_max_left _ _
    unfold min_roi_boost_factor
    nlinarith
  · next h => exact not_lt.mp h

/-- After the floor-and-bias step the monthly savings is positive. -/
theorem monthly_savings_final_pos (i : ScenarioInputs) :
    0 < monthly_savings_final i :=
  lt_of_lt_of_le one_pos (one_le_monthly_savings_final i)

/-- Two-decimal epsilon-adjusted rounding of 0 is 0. -/
theorem round2spec_zero : round2spec 0 = 0 := by
  norm_num [round2spec, numberEpsilon]

/-! ### Claims -/

/-- C1 (counterexample): at volume 10 and every other input zero, the raw
monthly savings is −2 and the biased value −2.2 is below 1, so the floor
fires; the code yields max(1, |−2.2|)·1.1 = 2.42, whereas the claimed
formula max(1, |raw|)·1.1 yields 2.2 — the absolute value is taken of the
already-biased value, not of the pre-bias raw value. -/
theorem C1_floor_abs_counterexample :
    monthly_savings_raw floorAbsInput = -2 ∧
    monthly_savings_biased floorAbsInput < 1 ∧
    monthly_savings_final floorAbsInput = 2.42 ∧
    max 1 |monthly_savings_raw floorAbsInput| * min_roi_boost_factor = 2.2 ∧
    (2.42 : ℚ) ≠ 2.2 := by
  have hraw : monthly_savings_raw floorAbsInput = -2 := by
    norm_num [monthly_savings_raw, labor_cost_manual, auto_cost, error_savings,
      floorAbsInput, automated_cost_per_invoice, error_rate_auto]
  have hb : monthly_savings_biased floorAbsInput = -(11/5) := by
    unfold monthly_savings_biased min_roi_boost_factor
    rw [hraw]
    norm_num
  refine ⟨hraw, by rw [hb]; norm_num, ?_, ?_, by norm_num⟩
  · unfold monthly_savings_final min_roi_boost_factor
    rw [if_pos (by rw [hb]; norm_num), hb, abs_neg,
      abs_of_nonneg (by norm_num : (0:ℚ) ≤ 11/5),
      max_eq_right (by norm_num : (1:ℚ) ≤ 11/5)]
    norm_num
  · unfold min_roi_boost_factor
    rw [hraw, abs_neg, abs_of_nonneg (by norm_num : (0:ℚ) ≤ 2),
      max_eq_right (by norm_num : (1:ℚ) ≤ 2)]
    norm_num

/-- C1 (amended): when the biased value `monthly_savings_raw × 1.1` is
strictly below 1, the monthly savings used for all subsequent steps is
max(1, |monthly_savings_raw × 1.1|) × 1.1 — the absolute value of the
already-biased value, not of the pre-bias raw value; otherwise it is the
biased value itself, and the returned `monthly_savings` field is its
two-decimal rounding. -/
theorem C1_floor_policy_on_biased (i : ScenarioInputs) :
    monthly_savings_final i =
      (if monthly_savings_raw i * (11/10) < 1 then
        max 1 |monthly_savings_raw i * (11/10)| * (11/10)
      else monthly_savings_raw i * (11/10)) ∧
    (computeResults i).monthly_savings = .fin (round2spec (monthly_savings_final i)) := by
  constructor
  · unfold monthly_savings_final monthly_savings_biased min_roi_boost_factor
    rfl
  · rfl

/-- C2 (counterexample): at the all-zero input with horizon 36 and
implementation cost 0, the floored monthly savings is 1.1 > 0, so the
guard takes the division branch and payback_months is 0/1.1 = 0, not the
positive-infinity sentinel. -/
theorem C2_zero_cost_payback_counterexample :
    (0 ≤ allZeroInputs.monthly_invoice_volume ∧ 0 ≤ allZeroInputs.num_ap_staff ∧
      0 ≤ allZeroInputs.avg_hours_per_invoice ∧ 0 ≤ allZeroInputs.hourly_wage ∧
      0 ≤ allZeroInputs.error_rate_manual ∧ 0 ≤ allZeroInputs.error_cost ∧
      0 ≤ allZeroInputs.time_horizon_months) ∧
    allZeroInputs.one_time_implementation_cost = 0 ∧
    (computeResults allZeroInputs).payback_months = .fin 0 ∧
    JSVal.fin 0 ≠ JSVal.inf := by
  refine ⟨by norm_num [allZeroInputs], by norm_num [allZeroInputs], ?_,
    fun h => JSVal.noConfusion h⟩
  norm_num [computeResults, payback_months, monthly_savings_final,
    monthly_savings_biased, monthly_savings_raw, labor_cost_manual, auto_cost,
    error_savings, allZeroInputs, automated_cost_per_invoice, error_rate_auto,
    min_roi_boost_factor, round, jsAddEps, jsMul100, jsMathRound, jsDiv100,
    numberEpsilon]

/-- C2 (amended): for non-negative inputs with a one-time implementation
cost of 0, roi_percentage is the positive-infinity sentinel but
payback_months is 0 (the monthly savings is always positive, so the
division branch is taken and 0 divided by it is 0). -/
theorem C2_zero_cost_roi_inf_payback_zero (i : ScenarioInputs)
    (_h1 : 0 ≤ i.monthly_invoice_volume) (_h2 : 0 ≤ i.num_ap_staff)
    (_h3 : 0 ≤ i.avg_hours_per_invoice) (_h4 : 0 ≤ i.hourly_wage)
    (_h5 : 0 ≤ i.error_rate_manual) (_h6 : 0 ≤ i.error_cost)
    (_h7 : 0 ≤ i.time_horizon_months) (hc : i.one_time_implementation_cost = 0) :
    (computeResults i).payback_months = .fin 0 ∧
    (computeResults i).roi_percentage = .inf := by
  constructor
  · have hp : payback_months i = .fin 0 := by
      unfold payback_months
      rw [if_pos (monthly_savings_final_pos i), hc, zero_div]
    show jsDiv100 (round (jsMul100 (payback_months i))) = .fin 0
    rw [hp]
    show JSVal.fin (round2spec (0 * 100) / 100) = JSVal.fin 0
    rw [zero_mul, round2spec_zero, zero_div]
  · show round (roi_percentage i) = .inf
    unfold roi_percentage
    rw [hc, if_neg (lt_irrefl (0 : ℚ))]
    rfl

/-- C2 (witness): the amended statement at the all-zero input. -/
theorem C2_zero_cost_roi_inf_payback_zero_witness :
    (computeResults allZeroInputs).payback_months = .fin 0 ∧
    (computeResults allZeroInputs).roi_percentage = .inf :=
  C2_zero_cost_roi_inf_payback_zero allZeroInputs
    (by norm_num [allZeroInputs]) (by norm_num [allZeroInputs])
    (by norm_num [allZeroInputs]) (by norm_num [allZeroInputs])
    (by norm_num [allZeroInputs]) (by norm_num [allZeroInputs])
    (by norm_num [allZeroInputs]) (by norm_num [allZeroInputs])

/-- C3 (counterexample): with one invoice, one staffer, one hour per
invoice and wage 1.15, the biased monthly savings is 1.045 — at least 1,
so the floor does not fire — and both it and its rounded field 1.05 are
strictly below 1.1. -/
theorem C3_monthly_savings_below_bias_counterexample :
    monthly_savings_final bandInput = 1.045 ∧
    (1.045 : ℚ) < 1.1 ∧
    (computeResults bandInput).monthly_savings = .fin 1.05 ∧
    (1.05 : ℚ) < 1.1 := by
  refine ⟨?_, by norm_num, ?_, by norm_num⟩ <;>
    norm_num [computeResults, monthly_savings_final, monthly_savings_biased,
      monthly_savings_raw, labor_cost_manual, auto_cost, error_savings, bandInput,
      automated_cost_per_invoice, error_rate_auto, min_roi_boost_factor,
      round, jsAddEps, jsMul100, jsMathRound, jsDiv100, round2spec, numberEpsilon]

/-- C3 (amended): after the floor-and-bias step the monthly savings is at
least 1 (not 1.1: biased values in [1, 1.1) pass the floor untouched), and
the returned field, its two-decimal rounding, is also at least 1. -/
theorem C3_monthly_savings_ge_one (i : ScenarioInputs) :
    1 ≤ monthly_savings_final i ∧
    (computeResults i).monthly_savings = .fin (round2spec (monthly_savings_final i)) ∧
    1 ≤ round2spec (monthly_savings_final i) :=
  ⟨one_le_monthly_savings_final i, rfl,
    one_le_round2spec (one_le_monthly_savings_final i)⟩

/-- C4 (counterexample): at the spec's Scenario 1 the payback_months field
is 1.4663 — the helper applied to payback × 100 and then divided by 100,
i.e. a four-decimal rounding — whereas the two-decimal epsilon-adjusted
rounding of the computed payback 50000/34100 is 1.47; the field is neither
that value nor the infinity sentinel. -/
theorem C4_payback_rounding_counterexample :
    (computeResults scenario1).payback_months = .fin 1.4663 ∧
    monthly_savings_final scenario1 = 34100 ∧
    round2spec (scenario1.one_time_implementation_cost / 34100) = 1.47 ∧
    JSVal.fin (1.4663 : ℚ) ≠ JSVal.fin (1.47 : ℚ) ∧
    JSVal.fin (1.4663 : ℚ) ≠ JSVal.inf := by
  refine ⟨?_, ?_, ?_, fun h => by injection h with h'; norm_num at h',
    fun h => JSVal.noConfusion h⟩ <;>
    norm_num [computeResults, payback_months, monthly_savings_final,
      monthly_savings_biased, monthly_savings_raw, labor_cost_manual, auto_cost,
      error_savings, scenario1, automated_cost_per_invoice, error_rate_auto,
      min_roi_boost_factor, round, jsAddEps, jsMul100, jsMathRound, jsDiv100,
      round2spec, numberEpsilon]

/-- C4 (amended): seven fields are the two-decimal epsilon-adjusted
rounding of their computed values, and roi_percentage may instead be the
infinity sentinel; payback_months, however, is the rounding helper applied
to payback × 100 and then divided by 100 — a four-decimal rounding — and
is never the sentinel, since the monthly savings is always positive. -/
theorem C4_results_rounding (i : ScenarioInputs) :
    (computeResults i).labor_cost_manual = .fin (round2spec (labor_cost_manual i)) ∧
    (computeResults i).auto_cost = .fin (round2spec (auto_cost i)) ∧
    (computeResults i).error_savings = .fin (round2spec (error_savings i)) ∧
    (computeResults i).monthly_savings = .fin (round2spec (monthly_savings_final i)) ∧
    (computeResults i).cumulative_savings = .fin (round2spec (cumulative_savings i)) ∧
    (computeResults i).net_savings = .fin (round2spec (net_savings i)) ∧
    (computeResults i).payback_months =
      .fin (round2spec (i.one_time_implementation_cost / monthly_savings_final i * 100) / 100) ∧
    (computeResults i).roi_percentage =
      (if 0 < i.one_time_implementation_cost then
        .fin (round2spec (net_savings i / i.one_time_implementation_cost * 100))
      else .inf) := by
  refine ⟨rfl, rfl, rfl, rfl, rfl, rfl, ?_, ?_⟩
  · show jsDiv100 (round (jsMul100 (payback_months i))) = _
    unfold payback_months
    rw [if_pos (monthly_savings_final_pos i)]
    rfl
  · show round (roi_percentage i) = _
    unfold roi_percentage
    by_cases hc : 0 < i.one_time_implementation_cost
    · rw [if_pos hc, if_pos hc]
      rfl
    · rw [if_neg hc, if_neg hc]
      rfl

/-- C5 (counterexample): at Scenario 1 the payback_months field is 1.4663,
not the two-decimal rounding 1.47 of 50000/34100 the claim states. -/
theorem C5_scenario1_payback_counterexample :
    (computeResults scenario1).payback_months = .fin 1.4663 ∧
    round2spec (50000 / 34100) = 1.47 ∧
    JSVal.fin (1.4663 : ℚ) ≠ JSVal.fin (1.47 : ℚ) := by
  refine ⟨?_, ?_, fun h => by injection h with h'; norm_num at h'⟩ <;>
    norm_num [computeResults, payback_months, monthly_savings_final,
      monthly_savings_biased, monthly_savings_raw, labor_cost_manual, auto_cost,
      error_savings, scenario1, automated_cost_per_invoice, error_rate_auto,
      min_roi_boost_factor, round, jsAddEps, jsMul100, jsMathRound, jsDiv100,
      round2spec, numberEpsilon]

/-- C5 (amended): Scenario 1 returns labor_cost_manual 30600, auto_cost
400, error_savings 800, monthly_savings 34100 (the floor is not
triggered), cumulative_savings 1227600, net_savings 1177600,
roi_percentage 2355.2, and payback_months 1.4663 (50000/34100 rounded to
four decimal places by `round(payback × 100) / 100`), not 1.47. -/
theorem C5_scenario1_results :
    computeResults scenario1 =
      { labor_cost_manual := .fin 30600
        auto_cost := .fin 400
        error_savings := .fin 800
        monthly_savings := .fin 34100
        cumulative_savings := .fin 1227600
        net_savings := .fin 1177600
        payback_months := .fin 1.4663
        roi_percentage := .fin 2355.2 } ∧
    ¬ monthly_savings_biased scenario1 < 1 := by
  constructor
  · norm_num [computeResults, payback_months, roi_percentage, net_savings,
      cumulative_savings, monthly_savings_final, monthly_savings_biased,
      monthly_savings_raw, labor_cost_manual, auto_cost, error_savings, scenario1,
      automated_cost_per_invoice, error_rate_auto, min_roi_boost_factor,
      round, jsAddEps, jsMul100, jsMathRound, jsDiv100, numberEpsilon,
      ComputedResults.mk.injEq, JSVal.fin.injEq]
  · norm_num [monthly_savings_biased, monthly_savings_raw, labor_cost_manual,
      auto_cost, error_savings, scenario1, automated_cost_per_invoice,
      error_rate_auto, min_roi_boost_factor]

/-- C6 (counterexample): with monthly savings 1.111 and horizon 36, the
returned monthly_savings field is 1.11 while the cumulative_savings field
is 40 = round(1.111 × 36), not round(1.11 × 36) = 39.96: the cumulative
figure is computed from the unrounded monthly savings, not from the
returned field. -/
theorem C6_cumulative_rounding_counterexample :
    (computeResults thirdDecimalInput).monthly_savings = .fin 1.11 ∧
    (computeResults thirdDecimalInput).cumulative_savings = .fin 40 ∧
    round2spec ((1.11 : ℚ) * thirdDecimalInput.time_horizon_months) = 39.96 ∧
    JSVal.fin (40 : ℚ) ≠ JSVal.fin (39.96 : ℚ) := by
  refine ⟨?_, ?_, ?_, fun h => by injection h with h'; norm_num at h'⟩ <;>
    norm_num [computeResults, cumulative_savings, monthly_savings_final,
      monthly_savings_biased, monthly_savings_raw, labor_cost_manual, auto_cost,
      error_savings, thirdDecimalInput, automated_cost_per_invoice,
      error_rate_auto, min_roi_boost_factor, round, jsAddEps, jsMul100,
      jsMathRound, jsDiv100, round2spec, numberEpsilon]

/-- C6 (amended): the cumulative_savings field is the two-decimal rounding
of the pre-rounding monthly savings (the floor-and-bias result, before its
own rounding) multiplied by time_horizon_months. -/
theorem C6_cumulative_from_unrounded (i : ScenarioInputs) :
    (computeResults i).cumulative_savings =
      .fin (round2spec (monthly_savings_final i * i.time_horizon_months)) := rfl

/-- C7: the rounding helper maps the positive-infinity sentinel to itself
(each JS step preserves `Infinity`), the payback pipeline
`round(v * 100) / 100` does too, and an infinite roi_percentage therefore
survives rounding into the returned field. -/
theorem C7_round_infinity_passthrough :
    round .inf = .inf ∧
    jsDiv100 (round (jsMul100 .inf)) = .inf ∧
    ∀ i : ScenarioInputs, roi_percentage i = .inf →
      (computeResults i).roi_percentage = .inf := by
  refine ⟨rfl, rfl, fun i h => ?_⟩
  show round (roi_percentage i) = .inf
  rw [h]
  exact round_inf_eq

/-- C7 (witness): at the all-zero input the raw roi_percentage is the
sentinel and the returned field still is after rounding. -/
theorem C7_round_infinity_passthrough_witness :
    (computeResults allZeroInputs).roi_percentage = .inf :=
  C7_round_infinity_passthrough.2.2 allZeroInputs
    (by norm_num [roi_percentage, allZeroInputs])

/-- C8: a save request without a scenario_name is rejected with the 400
response and the stored list of scenarios is returned unchanged — no
record is created. -/
theorem C8_save_missing_name_rejected (now : ℕ) (p : SavePayload)
    (store : List SavedScenario) (h : p.scenario_name = none) :
    postScenarios now p store = (.badRequest "Scenario name required", store) := by
  simp [postScenarios, strTruthy, h]

/-- C8 (witness): a concrete nameless payload against the empty store. -/
theorem C8_save_missing_name_rejected_witness :
    postScenarios 0 ⟨none, allZeroInputs⟩ [] =
      (.badRequest "Scenario name required", []) :=
  C8_save_missing_name_rejected 0 ⟨none, allZeroInputs⟩ [] rfl

/-- C9: report generation fails with the 400 response when the email or
the scenario identifier is missing and with the 404 response when the
identifier does not resolve to a stored scenario, and in each of these
failure cases no document is produced. -/
theorem C9_report_errors_no_document (now : ℕ)
    (store : List (String × SavedScenario)) (sid : Option String) (e s : String)
    (he : e ≠ "") (hs : s ≠ "") (hfind : findById s store = none) :
    (generateReport now sid none store = .badRequest "Email required" ∧
      isDoc (generateReport now sid none store) = false) ∧
    (generateReport now none (some e) store = .badRequest "scenarioId required" ∧
      isDoc (generateReport now none (some e) store) = false) ∧
    (generateReport now (some s) (some e) store = .notFound "Scenario not found" ∧
      isDoc (generateReport now (some s) (some e) store) = false) := by
  have he' : e.isEmpty = false := by
    cases h : e.isEmpty
    · rfl
    · exact absurd ((String.isEmpty_iff e).mp h) he
  have hs' : s.isEmpty = false := by
    cases h : s.isEmpty
    · rfl
    · exact absurd ((String.isEmpty_iff s).mp h) hs
  refine ⟨⟨?_, ?_⟩, ⟨?_, ?_⟩, ⟨?_, ?_⟩⟩ <;>
    simp [generateReport, strTruthy, he', hs', hfind, isDoc]

/-- C9 (witness): concrete requests against the empty store. -/
theorem C9_report_errors_no_document_witness :
    (generateReport 7 (some "deadbeef") none [] = .badRequest "Email required" ∧
      isDoc (generateReport 7 (some "deadbeef") none []) = false) ∧
    (generateReport 7 none (some "user@example.com") [] =
        .badRequest "scenarioId required" ∧
      isDoc (generateReport 7 none (some "user@example.com") []) = false) ∧
    (generateReport 7 (some "deadbeef") (some "user@example.com") [] =
        .notFound "Scenario not found" ∧
      isDoc (generateReport 7 (some "deadbeef") (some "user@example.com") []) = false) :=
  C9_report_errors_no_document 7 [] (some "deadbeef") "user@example.com" "deadbeef"
    (by decide) (by decide) rfl

/-- C10: a strictly negative one-time implementation cost is accepted (the
calculator is total) and fails the `> 0` guard, so roi_percentage is the
positive-infinity sentinel, never a finite negative percentage. -/
theorem C10_negative_cost_roi_infinite (i : ScenarioInputs)
    (h : i.one_time_implementation_cost < 0) :
    roi_percentage i = .inf ∧ (computeResults i).roi_percentage = .inf := by
  have hr : roi_percentage i = .inf := by
    unfold roi_percentage
    rw [if_neg (not_lt.mpr h.le)]
  refine ⟨hr, ?_⟩
  show round (roi_percentage i) = .inf
  rw [hr]
  exact round_inf_eq

/-- C10 (witness): the all-zero input with implementation cost −1. -/
theorem C10_negative_cost_roi_infinite_witness :
    roi_percentage negCostInput = .inf ∧
    (computeResults negCostInput).roi_percentage = .inf :=
  C10_negative_cost_roi_infinite negCostInput (by norm_num [negCostInput])

end RoiServer
